import Mathlib

/-!
Verification of the no-truthy-collections ESLint rule.

The repository ships two implementations of the rule:
  * src/unnamed/part_006 - an enhanced variant with destructuring exclusion,
    an exact variable-name tier, validation-pattern suppression and an
    empty-text guard in fix generation (namespace PartSix below);
  * src/lib/rules/no-truthy-collections.js - the variant wired into
    lib/index.js, with a TypeScript type oracle (namespace LibRule below).

Both are embedded shallowly: ESTree nodes become the inductive Expr, the
parent chain of a visited node becomes a list of Frame values (innermost
parent first), source-text extraction becomes the printer getText, and each
rule function becomes a Lean function of the same name.  ESLint reports are
modelled by the Report structure: kind of the classification, whether the
specialized suspicious-constructor message was used, the messageId, the text
of the primary fix (if any) and the ordered list of suggestion rewrite texts.
-/

namespace NTC

/-- Collection kinds distinguished by both rule variants. -/
inductive CollKind where
  | array
  | object
  | arraylike
deriving DecidableEq, BEq

/-- Detection methods appearing in the analysis records of the two variants.
PartSix uses literal, constructor, method, staticMethod, memberProperty,
variableName and variablePattern; LibRule uses typescript, literal,
constructor and naming. -/
inductive Method where
  | literal
  | constructor
  | method
  | staticMethod
  | memberProperty
  | variableName
  | variablePattern
  | typescript
  | naming
deriving DecidableEq, BEq

/-- Rule configuration, after normalization in create(): every field defaults
to true except strictNaming which defaults to false. -/
structure Config where
  checkArrays : Bool
  checkObjects : Bool
  checkArrayLike : Bool
  allowExplicitBoolean : Bool
  strictNaming : Bool
deriving DecidableEq

def defaultConfig : Config :=
  { checkArrays := true, checkObjects := true, checkArrayLike := true,
    allowExplicitBoolean := true, strictNaming := false }

/-- Turn the configuration flag that governs one collection kind off. -/
def disableKind (k : CollKind) (cfg : Config) : Config :=
  match k with
  | .array => { cfg with checkArrays := false }
  | .object => { cfg with checkObjects := false }
  | .arraylike => { cfg with checkArrayLike := false }

/-- ESTree expression nodes, restricted to the shapes the two rule files
inspect.  objectLit stands for an object literal (its properties are never
inspected by either rule).  lit carries the raw source text of any other
literal. -/
inductive Expr where
  | ident (name : String)
  | lit (raw : String)
  | arrayLit (elements : List Expr)
  | objectLit
  | call (isNew : Bool) (callee : Expr) (args : List Expr)
  | member (object : Expr) (property : Expr) (optional : Bool)
  | binary (op : String) (left : Expr) (right : Expr)
  | logical (op : String) (left : Expr) (right : Expr)
  | unary (op : String) (argument : Expr)
  | cond (test : Expr) (consequent : Expr) (alternate : Expr)

/-- One step of the parent chain of a node: which parent node the current
node sits in, and in which slot, carrying exactly the sibling data the rule
functions read off the parent.  Pattern frames record ancestors that are
array patterns, object patterns or rest elements; other stands for any
ancestor kind the rules never inspect. -/
inductive Frame where
  | ifTest
  | whileTest
  | doWhileTest
  | forTest
  | condTest
  | logicalL (op : String) (right : Expr)
  | logicalR (op : String) (left : Expr)
  | unaryArg (op : String)
  | callCallee (isNew : Bool)
  | callArg (isNew : Bool) (callee : Expr)
  | memberObj (property : Expr) (optional : Bool)
  | memberProp (object : Expr) (optional : Bool)
  | arrayPat
  | objectPat
  | restElem
  | other

/-- Diagnosis record: classification kind, whether the specialized
suspicious-constructor message was used, messageId (none for reports built
from a raw message string), primary autofix text (none when the report only
carries suggestions), and the ordered suggested rewrite texts. -/
structure Report where
  kind : CollKind
  specialized : Bool
  messageId : Option String
  fixText : Option String
  suggestions : List String
deriving DecidableEq

def commaSep : List String → String
  | [] => ""
  | [s] => s
  | s :: rest => s ++ ", " ++ commaSep rest

mutual
/-- Model of sourceCode.getText(node): the source text of a node. -/
def getText : Expr → String
  | .ident n => n
  | .lit r => r
  | .arrayLit es => "[" ++ commaSep (getTextList es) ++ "]"
  | .objectLit => "\x7b\x7d"
  | .call isNew c args =>
      (if isNew then "new " else "") ++ getText c ++ "(" ++ commaSep (getTextList args) ++ ")"
  | .member o p opt => getText o ++ (if opt then "?." else ".") ++ getText p
  | .binary op l r => getText l ++ " " ++ op ++ " " ++ getText r
  | .logical op l r => getText l ++ " " ++ op ++ " " ++ getText r
  | .unary op a => op ++ getText a
  | .cond t c a => getText t ++ " ? " ++ getText c ++ " : " ++ getText a

def getTextList : List Expr → List String
  | [] => []
  | e :: es => getText e :: getTextList es
end

/-- The name of a node when it is an identifier, as in the optional-chained
accesses node?.name of the source. -/
def nameOf? : Expr → Option String
  | .ident n => some n
  | _ => none

/-- Characters stripped by the JavaScript trim() used in the guards of the
rules; text.toList.all isJsWhitespace models the source condition
(empty text or text.trim() equal to the empty string). -/
def isJsWhitespace (c : Char) : Bool :=
  c == ' ' || c == '\t' || c == '\n' || c == '\r' || c == '\x0b' || c == '\x0c'

/-- Both rule files contain the identical function
isInExplicitBooleanContext: the parent is a CallExpression whose callee is
the identifier Boolean, or the parent and grandparent are both logical-not
unary expressions. -/
def isInExplicitBooleanContext (node : Expr) (ctx : List Frame) : Bool :=
  match ctx with
  | [] => false
  | parent :: rest =>
    if (match parent with
        | .callArg false callee => nameOf? callee == some "Boolean"
        | .callCallee false => nameOf? node == some "Boolean"
        | _ => false) then
      true
    else
      match parent with
      | .unaryArg op =>
          op == "!" &&
          (match rest with
           | .unaryArg op2 :: _ => op2 == "!"
           | _ => false)
      | _ => false

end NTC

namespace NTC.PartSix

/-- Frames recording an ancestor that is an ArrayPattern, ObjectPattern or
RestElement node. -/
def isPatternFrame : Frame → Bool
  | .arrayPat => true
  | .objectPat => true
  | .restElem => true
  | _ => false

def hasPatternFrame (ctx : List Frame) : Bool :=
  ctx.any isPatternFrame

/-- part_006 isDestructuredVariable: an Identifier node one of whose
ancestors is an ArrayPattern, ObjectPattern or RestElement.  The walk starts
at the parent of the occurrence being classified, so it sees only the
ancestors of that occurrence, not the declaration that bound the name. -/
def isDestructuredVariable (node : Expr) (ctx : List Frame) : Bool :=
  match node with
  | .ident _ => hasPatternFrame ctx
  | _ => false

def nameIsLengthOrSize : Option String → Bool
  | some n => n == "length" || n == "size"
  | none => false

/-- The three accepted shapes for the right operand of a logical-and in
part_006 isProperValidationPattern: a BinaryExpression comparing a length or
size member with the operator GT or GE, a bare length or size member access,
or an Object.keys call followed by a length access. -/
def validLengthCheckRight (node : Expr) : Bool :=
  (match node with
   | .binary op (.member _ p _) _ =>
       nameIsLengthOrSize (nameOf? p) && (op == ">" || op == ">=")
   | _ => false) ||
  (match node with
   | .member _ p _ => nameIsLengthOrSize (nameOf? p)
   | _ => false) ||
  (match node with
   | .member (.call false (.member (.ident "Object") (.ident "keys") _) _) (.ident "length") _ =>
       true
   | _ => false)

/-- part_006 isProperValidationPattern.  Pattern 1: the parent is a
logical-and and its right operand is one of the validLengthCheckRight
shapes (when the node itself is the right operand, the parent field right
is the node).  Pattern 2: the parent is an optional member access of length
or size.  Pattern 3: the parent is a direct member access of length or size
with the node as its object. -/
def isProperValidationPattern (node : Expr) (ctx : List Frame) : Bool :=
  match ctx with
  | [] => false
  | parent :: _ =>
    match parent with
    | .logicalL op right => op == "&&" && validLengthCheckRight right
    | .logicalR op _ => op == "&&" && validLengthCheckRight node
    | .memberObj property opt =>
        (opt && nameIsLengthOrSize (nameOf? property)) ||
        nameIsLengthOrSize (nameOf? property)
    | .memberProp _ opt => opt && nameIsLengthOrSize (nameOf? node)
    | _ => false

/-- Classification record of part_006 analyzeNode.  The suspicious analyses
carry no method field and store the single array element. -/
structure Analysis where
  type : CollKind
  confidence : Nat
  method : Option Method
  suspicious : Bool
  element : Option Expr

def setLikeNames : List String := ["Set", "Map", "WeakSet", "WeakMap"]

def arrayMethods : List String :=
  ["map", "filter", "slice", "concat", "splice", "flat", "flatMap"]

def objectStaticMethods : List String :=
  ["create", "assign", "fromEntries", "keys", "values", "entries"]

def problematicArrayProps : List String :=
  ["roles", "tags", "items", "results", "activities", "connections", "posts",
   "comments", "notifications", "errors", "warnings", "failures", "duplicates"]

def problematicObjectProps : List String :=
  ["options", "config", "settings", "preferences", "filters", "metadata",
   "dateRange", "timeRange"]

def exactArrayNames : List String :=
  ["activities", "connections", "results", "items", "elements", "entries",
   "records", "users", "products", "files", "images", "categories", "widgets",
   "posts", "comments", "notifications", "tags", "roles", "errors", "warnings",
   "failures", "duplicates", "inactiveUsers", "userIds", "validatedWidgets",
   "recentPosts", "connectionTypes"]

def exactObjectNames : List String :=
  ["options", "config", "settings", "props", "attributes", "metadata",
   "preferences", "privacy", "dashboard", "filters", "updates", "userData",
   "userContent", "analytics", "timeRange", "dateRange", "activityGroups",
   "connectionsByType", "updatedPreferences"]

/-- True when the name ends with the given suffix string. -/
def strEnds (n : String) (s : String) : Bool :=
  s.toList.isSuffixOf n.toList

/-- Model of the anchored regexes of part_006 such as [Ll]ist$: the name
ends in the lowercase or the capitalized spelling. -/
def suffixEither (n : String) (low : String) (cap : String) : Bool :=
  strEnds n low || strEnds n cap

def matchesArrayPattern (n : String) : Bool :=
  suffixEither n "list" "List" || suffixEither n "array" "Array" ||
  suffixEither n "items" "Items" || suffixEither n "entries" "Entries" ||
  suffixEither n "records" "Records" || suffixEither n "results" "Results" ||
  suffixEither n "collection" "Collection"

def matchesObjectPattern (n : String) : Bool :=
  suffixEither n "options" "Options" || suffixEither n "config" "Config" ||
  suffixEither n "settings" "Settings" || suffixEither n "object" "Object" ||
  suffixEither n "data" "Data" || suffixEither n "info" "Info" ||
  suffixEither n "map" "Map"

/-- part_006 analyzeNode.  Tier order: literals, constructor and call shapes,
member-property allowlists, then identifier names (exact names always,
pattern names only under strictNaming, both skipped for identifiers inside
destructuring patterns). -/
def analyzeNode (strictNaming : Bool) (node : Expr) (ctx : List Frame) : Option Analysis :=
  match node with
  | .arrayLit _ => some ⟨.array, 100, some .literal, false, none⟩
  | .objectLit => some ⟨.object, 100, some .literal, false, none⟩
  | .call _ callee args =>
    (match callee with
     | .ident cname =>
       if cname == "Array" then some ⟨.array, 95, some .constructor, false, none⟩
       else if cname == "Object" then some ⟨.object, 95, some .constructor, false, none⟩
       else if setLikeNames.contains cname then
         match args with
         | [] => some ⟨.arraylike, 80, some .constructor, false, none⟩
         | [a] =>
           (match a with
            | .arrayLit es =>
              (match es with
               | [e] => some ⟨.arraylike, 90, none, true, some e⟩
               | _ => none)
            | _ => none)
         | _ => none
       else none
     | .member mobj mprop _ =>
       if (match nameOf? mprop with
           | some pn => arrayMethods.contains pn
           | none => false) then
         some ⟨.array, 85, some .method, false, none⟩
       else if nameOf? mobj == some "Array" &&
               (match nameOf? mprop with
                | some pn => pn == "from" || pn == "of"
                | none => false) then
         some ⟨.array, 95, some .staticMethod, false, none⟩
       else if nameOf? mobj == some "Object" &&
               (match nameOf? mprop with
                | some pn => objectStaticMethods.contains pn
                | none => false) then
         some ⟨.object, 95, some .staticMethod, false, none⟩
       else none
     | _ => none)
  | .member mobj mprop _ =>
    (match nameOf? mprop with
     | none => none
     | some pn =>
       match mobj with
       | .member _ _ _ => none
       | _ =>
         if problematicArrayProps.contains pn then
           some ⟨.array, 75, some .memberProperty, false, none⟩
         else if problematicObjectProps.contains pn then
           some ⟨.object, 75, some .memberProperty, false, none⟩
         else none)
  | .ident n =>
    if isDestructuredVariable (.ident n) ctx then none
    else if exactArrayNames.contains n then
      some ⟨.array, 85, some .variableName, false, none⟩
    else if exactObjectNames.contains n then
      some ⟨.object, 85, some .variableName, false, none⟩
    else if strictNaming then
      if matchesArrayPattern n then some ⟨.array, 65, some .variablePattern, false, none⟩
      else if matchesObjectPattern n then some ⟨.object, 65, some .variablePattern, false, none⟩
      else none
    else none
  | _ => none

/-- part_006 generateFix.  The guard models the source condition that the
extracted text is empty or trims to the empty string, in which case the
text is returned unchanged. -/
def generateFix (text : String) (k : CollKind) : String :=
  if text.toList.all isJsWhitespace then text
  else
    match k with
    | .array => text ++ ".length > 0"
    | .object => "Object.keys(" ++ text ++ ").length > 0"
    | .arraylike => text ++ ".size > 0"

def getMessageId (k : CollKind) (isLogical : Bool) : String :=
  if isLogical then
    match k with
    | .array => "arrayInLogical"
    | .object => "objectInLogical"
    | .arraylike => "arrayLikeTruthy"
  else
    match k with
    | .array => "arrayTruthy"
    | .object => "objectTruthy"
    | .arraylike => "arrayLikeTruthy"

def shouldCheck (cfg : Config) (k : CollKind) : Bool :=
  (k == .array && cfg.checkArrays) ||
  (k == .object && cfg.checkObjects) ||
  (k == .arraylike && cfg.checkArrayLike)

/-- Confidence thresholds of part_006 reportIssue: 60 by default, 65 for
variable-pattern evidence, 70 for member-property evidence. -/
def minConfidence : Option Method → Nat
  | some .variablePattern => 65
  | some .memberProperty => 70
  | _ => 60

/-- part_006 reportIssue, in source order: configuration gate, validation
pattern gate, confidence gate, explicit-boolean gate, then the specialized
suspicious report or the generic report. -/
def reportIssue (cfg : Config) (node : Expr) (ctx : List Frame) (a : Analysis)
    (isLogical : Bool) : Option Report :=
  if !(shouldCheck cfg a.type) then none
  else if isProperValidationPattern node ctx then none
  else if a.confidence < minConfidence a.method then none
  else if cfg.allowExplicitBoolean && isInExplicitBooleanContext node ctx then none
  else
    match a.suspicious, a.element with
    | true, some e =>
        let calleeName :=
          match node with
          | .call _ (.ident cn) _ => cn
          | _ => "undefined"
        let elementText := getText e
        some { kind := a.type, specialized := true, messageId := none, fixText := none,
               suggestions := [elementText,
                               "new " ++ calleeName ++ "(" ++ elementText ++ ").size > 0",
                               generateFix (getText node) a.type] }
    | _, _ =>
        let suggestion := generateFix (getText node) a.type
        let suggestions :=
          if a.type == .arraylike then [suggestion]
          else [suggestion, "Boolean(" ++ getText node ++ ")"]
        some { kind := a.type, specialized := false,
               messageId := some (getMessageId a.type isLogical),
               fixText := some suggestion, suggestions := suggestions }

/-- part_006 checkBooleanContext. -/
def checkBooleanContext (cfg : Config) (node : Expr) (ctx : List Frame)
    (isLogical : Bool) : Option Report :=
  match analyzeNode cfg.strictNaming node ctx with
  | some a => reportIssue cfg node ctx a isLogical
  | none => none

/-- Minimal statement forms needed to express destructuring declarations and
if statements at program level. -/
inductive Stmt where
  | ifStmt (test : Expr)
  | varDeclObjectPattern (names : List String) (init : Expr)
  | varDeclArrayPattern (names : List String) (init : Expr)

/-- The IfStatement visitor of part_006 applied across a program: each if
test is checked in boolean context with the IfStatement as its parent. -/
def runRule (cfg : Config) (program : List Stmt) : List Report :=
  (program.map fun s =>
    match s with
    | .ifStmt t => (checkBooleanContext cfg t [Frame.ifTest] false).toList
    | _ => []).flatten

/-- A name is bound by destructuring in a program when some declaration
binds it through an object or array pattern. -/
def boundByDestructuring (program : List Stmt) (name : String) : Bool :=
  program.any fun s =>
    match s with
    | .varDeclObjectPattern ns _ => ns.contains name
    | .varDeclArrayPattern ns _ => ns.contains name
    | _ => false

end NTC.PartSix

namespace NTC.LibRule

/-- Result shape of the TypeScript type queries in
src/lib/rules/no-truthy-collections.js getTypeInfo. -/
structure TypeInfo where
  isArray : Bool
  isArrayLike : Bool
  isObject : Bool

/-- The optional type oracle: none models a parser without type services;
a query may throw (Except.error) or resolve to nothing (ok none), covering
a missing tsNode as well as checker failures. -/
def Oracle : Type :=
  Option (Expr → Except Unit (Option TypeInfo))

/-- getTypeInfo: absent services yield null, and any exception from the
query is caught and turned into null, so the caller never sees a throw. -/
def getTypeInfo (oracle : Oracle) (node : Expr) : Option TypeInfo :=
  match oracle with
  | none => none
  | some query =>
    match query node with
    | .error _ => none
    | .ok r => r

/-- Analysis record of the lib variant analyzeNode; the unknown result is
modelled as none at the call sites. -/
structure Analysis where
  type : CollKind
  confidence : Nat
  method : Method

/-- analyzeLiteral of the lib variant. -/
def analyzeLiteral (node : Expr) : Option Analysis :=
  match node with
  | .arrayLit _ => some ⟨.array, 100, .literal⟩
  | .objectLit => some ⟨.object, 100, .literal⟩
  | _ => none

def arrayMethods : List String :=
  ["map", "filter", "slice", "concat", "splice", "reverse", "sort", "flat",
   "flatMap", "toSorted", "toReversed"]

/-- isArrayConstructor: the identifier Array; a member on the identifier
Array (returning whether the property is from or of); or any other member
whose property name is one of the array-returning methods. -/
def isArrayConstructor (callee : Expr) : Bool :=
  match callee with
  | .ident n => n == "Array"
  | .member mobj mprop _ =>
    if nameOf? mobj == some "Array" then
      (match nameOf? mprop with
       | some pn => pn == "from" || pn == "of"
       | none => false)
    else
      (match nameOf? mprop with
       | some pn => arrayMethods.contains pn
       | none => false)
  | _ => false

/-- isObjectConstructor: the identifier Object, or Object.create, assign or
fromEntries. -/
def isObjectConstructor (callee : Expr) : Bool :=
  match callee with
  | .ident n => n == "Object"
  | .member mobj mprop _ =>
    nameOf? mobj == some "Object" &&
    (match nameOf? mprop with
     | some pn => pn == "create" || pn == "assign" || pn == "fromEntries"
     | none => false)
  | _ => false

def arrayLikeTypes : List String :=
  ["Set", "Map", "WeakSet", "WeakMap", "NodeList", "HTMLCollection"]

def isArrayLikeConstructor (callee : Expr) : Bool :=
  match callee with
  | .ident n => arrayLikeTypes.contains n
  | _ => false

/-- analyzeConstructor of the lib variant: array-like constructors are
flagged when called with no argument or with a single array-literal
argument of any length. -/
def analyzeConstructor (node : Expr) : Option Analysis :=
  match node with
  | .call _ callee args =>
    if isArrayConstructor callee then some ⟨.array, 95, .constructor⟩
    else if isObjectConstructor callee then some ⟨.object, 95, .constructor⟩
    else if isArrayLikeConstructor callee then
      match args with
      | [] => some ⟨.arraylike, 80, .constructor⟩
      | [a] =>
        (match a with
         | .arrayLit _ => some ⟨.arraylike, 80, .constructor⟩
         | _ => none)
      | _ => none
    else none
  | _ => none

/-- True when the name ends with the given suffix string. -/
def strEnds (n : String) (s : String) : Bool :=
  s.toList.isSuffixOf n.toList

def suffixEither (n : String) (low : String) (cap : String) : Bool :=
  strEnds n low || strEnds n cap

/-- Model of the case-insensitive anchored start regexes of analyzeNaming. -/
def lowerStarts (n : String) (s : String) : Bool :=
  s.toList.isPrefixOf (n.toList.map Char.toLower)

def matchesArrayNaming (n : String) : Bool :=
  suffixEither n "array" "Array" || suffixEither n "list" "List" ||
  suffixEither n "items" "Items" || suffixEither n "elements" "Elements" ||
  lowerStarts n "items" || lowerStarts n "elements" || lowerStarts n "list" ||
  lowerStarts n "array" || lowerStarts n "collection" ||
  suffixEither n "collection" "Collection" || suffixEither n "records" "Records"

def matchesObjectNaming (n : String) : Bool :=
  suffixEither n "object" "Object" || suffixEither n "map" "Map" ||
  suffixEither n "config" "Config" || suffixEither n "options" "Options" ||
  suffixEither n "settings" "Settings" || suffixEither n "props" "Props" ||
  suffixEither n "attributes" "Attributes" ||
  lowerStarts n "config" || lowerStarts n "options" || lowerStarts n "settings" ||
  lowerStarts n "props" || lowerStarts n "attrs" || lowerStarts n "data"

/-- analyzeNaming of the lib variant: heuristic name patterns at
confidence 60. -/
def analyzeNaming (node : Expr) : Option Analysis :=
  match node with
  | .ident n =>
    if matchesArrayNaming n then some ⟨.array, 60, .naming⟩
    else if matchesObjectNaming n then some ⟨.object, 60, .naming⟩
    else none
  | _ => none

/-- The syntactic tiers of the lib variant analyzeNode: literal shape, then
constructor shape, then (only under strictNaming and only for identifiers)
the naming heuristic. -/
def analyzeSyntactic (strictNaming : Bool) (node : Expr) : Option Analysis :=
  match analyzeLiteral node with
  | some r => some r
  | none =>
    match analyzeConstructor node with
    | some r => some r
    | none =>
      if strictNaming then
        match node with
        | .ident _ => analyzeNaming node
        | _ => none
      else none

/-- analyzeNode of the lib variant: the TypeScript oracle first (isArray at
confidence 100, isArrayLike at 90, isObject at 100, falling through when no
flag is set), then the syntactic tiers. -/
def analyzeNode (oracle : Oracle) (strictNaming : Bool) (node : Expr) : Option Analysis :=
  match getTypeInfo oracle node with
  | some ti =>
    if ti.isArray then some ⟨.array, 100, .typescript⟩
    else if ti.isArrayLike then some ⟨.arraylike, 90, .typescript⟩
    else if ti.isObject then some ⟨.object, 100, .typescript⟩
    else analyzeSyntactic strictNaming node
  | none => analyzeSyntactic strictNaming node

/-- hasSuspiciousCollectionPattern of the lib variant: a Set or Map
invocation with a single one-element array-literal argument, yielding the
constructor name and the element. -/
def hasSuspiciousCollectionPattern (node : Expr) : Option (String × Expr) :=
  match node with
  | .call _ (.ident c) [.arrayLit [e]] =>
    if c == "Set" || c == "Map" then some (c, e) else none
  | _ => none

/-- generateFix of the lib variant: plain concatenation with no guard on
the extracted text. -/
def generateFix (text : String) (k : CollKind) : String :=
  match k with
  | .array => text ++ ".length > 0"
  | .object => "Object.keys(" ++ text ++ ").length > 0"
  | .arraylike => text ++ ".size > 0"

def getMessageId (k : CollKind) (isLogical : Bool) : String :=
  if isLogical then
    match k with
    | .array => "arrayInLogical"
    | .object => "objectInLogical"
    | .arraylike => "arrayLikeTruthy"
  else
    match k with
    | .array => "arrayTruthy"
    | .object => "objectTruthy"
    | .arraylike => "arrayLikeTruthy"

def shouldCheck (cfg : Config) (k : CollKind) : Bool :=
  match k with
  | .array => cfg.checkArrays
  | .object => cfg.checkObjects
  | .arraylike => cfg.checkArrayLike

/-- reportIssue of the lib variant, in source order: low-confidence naming
gate, explicit-boolean gate, the specialized suspicious report (emitted
before the configuration gate), the configuration gate, then the generic
report for the high-confidence methods. -/
def reportIssue (cfg : Config) (node : Expr) (ctx : List Frame) (a : Analysis)
    (isLogical : Bool) : Option Report :=
  if a.method == .naming && a.confidence < 50 then none
  else if cfg.allowExplicitBoolean && isInExplicitBooleanContext node ctx then none
  else
    match hasSuspiciousCollectionPattern node with
    | some (calleeName, e) =>
        let elementText := getText e
        some { kind := a.type, specialized := true, messageId := none, fixText := none,
               suggestions := [elementText,
                               "new " ++ calleeName ++ "(" ++ elementText ++ ").size > 0",
                               generateFix (getText node) a.type] }
    | none =>
        if !(shouldCheck cfg a.type) then none
        else if a.method == .literal || a.method == .constructor ||
                a.method == .typescript ||
                (a.method == .naming && 50 ≤ a.confidence) then
          let suggestion := generateFix (getText node) a.type
          let suggestions :=
            if a.type == .arraylike then [suggestion]
            else [suggestion, "Boolean(" ++ getText node ++ ")"]
          some { kind := a.type, specialized := false,
                 messageId := some (getMessageId a.type isLogical),
                 fixText := some suggestion, suggestions := suggestions }
        else none

/-- checkBooleanContext of the lib variant. -/
def checkBooleanContext (cfg : Config) (oracle : Oracle) (node : Expr)
    (ctx : List Frame) (isLogical : Bool) : Option Report :=
  match analyzeNode oracle cfg.strictNaming node with
  | some a => reportIssue cfg node ctx a isLogical
  | none => none

/-- The CallExpression visitor of the lib variant: on a call of the
identifier Boolean with exactly one argument, the argument is analyzed and,
when it classifies with confidence above 50 and its kind is enabled, a
report is attached to the argument with one suggestion.  The
allowExplicitBoolean option is not consulted on this path. -/
def booleanVisitor (cfg : Config) (oracle : Oracle) (node : Expr) : Option Report :=
  match node with
  | .call false (.ident "Boolean") [arg] =>
    (match analyzeNode oracle cfg.strictNaming arg with
     | some a =>
       if 50 < a.confidence && shouldCheck cfg a.type then
         some { kind := a.type, specialized := false, messageId := none,
                fixText := none,
                suggestions := [generateFix (getText arg) a.type] }
       else none
     | none => none)
  | _ => none

end NTC.LibRule

namespace NTC

/-- True when the node is an array literal. -/
def isArrayLiteral : Expr → Bool
  | .arrayLit _ => true
  | _ => false

/-- True when the node is an array literal with at least two elements. -/
def isMultiElementArray : Expr → Bool
  | .arrayLit es => decide (2 ≤ es.length)
  | _ => false

/-- A two-statement program: a declaration destructuring the name items out
of an object, followed by an if statement testing the bare identifier
items. -/
def destructuredProgram : List PartSix.Stmt :=
  [PartSix.Stmt.varDeclObjectPattern ["items"] (.ident "response"),
   PartSix.Stmt.ifStmt (.ident "items")]

end NTC

open NTC



/-- C8: when the type oracle is absent, throws, or resolves to nothing for a
node, getTypeInfo catches this at the query boundary and yields no type
information, and analyzeNode of the lib rule falls through to the syntactic
tiers; since getTypeInfo and analyzeNode are total functions into Option,
no exception ever reaches the caller. -/
theorem C8_oracle_failure_caught (q : Expr → Except Unit (Option LibRule.TypeInfo))
    (sn : Bool) (node : Expr)
    (h : q node = Except.error () ∨ q node = Except.ok none) :
    LibRule.getTypeInfo (some q) node = none ∧
    LibRule.analyzeNode (some q) sn node = LibRule.analyzeSyntactic sn node ∧
    LibRule.analyzeNode none sn node = LibRule.analyzeSyntactic sn node := by
  have hg : LibRule.getTypeInfo (some q) node = none := by
    rcases h with h | h <;> simp [LibRule.getTypeInfo, h]
  refine ⟨hg, ?_, rfl⟩
  simp [LibRule.analyzeNode, hg]

theorem C8_oracle_failure_caught_witness :
    ((fun _ : Expr => (Except.error () : Except Unit (Option LibRule.TypeInfo))) (Expr.ident "xs")
        = Except.error () ∨
     (fun _ : Expr => (Except.error () : Except Unit (Option LibRule.TypeInfo))) (Expr.ident "xs")
        = Except.ok none) ∧
    (LibRule.getTypeInfo (some fun _ => Except.error ()) (Expr.ident "xs") = none ∧
     LibRule.analyzeNode (some fun _ => Except.error ()) false (Expr.ident "xs") =
       LibRule.analyzeSyntactic false (Expr.ident "xs") ∧
     LibRule.analyzeNode none false (Expr.ident "xs") =
       LibRule.analyzeSyntactic false (Expr.ident "xs")) :=
  ⟨Or.inl rfl,
   C8_oracle_failure_caught (fun _ => Except.error ()) false (Expr.ident "xs") (Or.inl rfl)⟩

/-- C9 counterexample: the generateFix of the lib rule has no guard on the
extracted text, so on empty text it produces the malformed rewrite
.length GT 0 with no left-hand operand instead of returning the text
unchanged, falsifying the claim for that variant. -/
theorem C9_counterexample :
    LibRule.generateFix "" CollKind.array = ".length > 0" ∧ ".length > 0" ≠ "" :=
  ⟨rfl, by decide⟩

/-- C9 amended: in the part_006 variant, generateFix returns empty or
whitespace-only extracted text unchanged instead of concatenating a check
suffix; the lib variant lacks this guard. -/
theorem C9_whitespace_guard (text : String) (k : CollKind)
    (h : text.toList.all isJsWhitespace = true) :
    PartSix.generateFix text k = text := by
  simp only [PartSix.generateFix, h, if_true]

theorem C9_whitespace_guard_witness :
    ("  ".toList.all isJsWhitespace = true) ∧
    PartSix.generateFix "  " CollKind.object = "  " :=
  ⟨by decide, C9_whitespace_guard "  " CollKind.object (by decide)⟩

/-- C5: for a Set or Map invocation whose single argument is a one-element
array literal, both rule variants emit the specialized diagnosis with
exactly three alternatives in this order: the source text of the element,
the rewrite constructing the container from the raw element followed by a
size check, and the generic array-like rewrite produced by generateFix on
the whole node.  Stated for the default configuration with the node in an
if-statement test position. -/
theorem C5_suspicious_three_alternatives (c : String) (hc : c = "Set" ∨ c = "Map")
    (isNew : Bool) (e : Expr) (tail : List Frame) (lg : Bool) :
    (PartSix.checkBooleanContext defaultConfig
        (.call isNew (.ident c) [.arrayLit [e]]) (Frame.ifTest :: tail) lg =
      some { kind := .arraylike, specialized := true, messageId := none, fixText := none,
             suggestions := [getText e,
                             "new " ++ c ++ "(" ++ getText e ++ ").size > 0",
                             PartSix.generateFix
                               (getText (.call isNew (.ident c) [.arrayLit [e]])) .arraylike] }) ∧
    (LibRule.checkBooleanContext defaultConfig none
        (.call isNew (.ident c) [.arrayLit [e]]) (Frame.ifTest :: tail) lg =
      some { kind := .arraylike, specialized := true, messageId := none, fixText := none,
             suggestions := [getText e,
                             "new " ++ c ++ "(" ++ getText e ++ ").size > 0",
                             LibRule.generateFix
                               (getText (.call isNew (.ident c) [.arrayLit [e]])) .arraylike] }) := by
  rcases hc with rfl | rfl <;> exact ⟨rfl, rfl⟩

theorem C5_suspicious_three_alternatives_witness :
    ("Set" = "Set" ∨ "Set" = "Map") ∧
    (PartSix.checkBooleanContext defaultConfig
        (.call true (.ident "Set") [.arrayLit [.ident "item"]]) [Frame.ifTest] false =
      some { kind := .arraylike, specialized := true, messageId := none, fixText := none,
             suggestions := ["item", "new Set(item).size > 0", "new Set([item]).size > 0"] }) ∧
    (LibRule.checkBooleanContext defaultConfig none
        (.call true (.ident "Set") [.arrayLit [.ident "item"]]) [Frame.ifTest] false =
      some { kind := .arraylike, specialized := true, messageId := none, fixText := none,
             suggestions := ["item", "new Set(item).size > 0", "new Set([item]).size > 0"] }) :=
  ⟨Or.inl rfl,
   C5_suspicious_three_alternatives "Set" (Or.inl rfl) true (Expr.ident "item") [] false⟩

/-- C10 counterexample: the lib rule classifies a Set constructor on an empty
array literal as arraylike at confidence 80 and a diagnosis fires, because
its analyzeConstructor accepts a single array-literal argument of any
length. -/
theorem C10_counterexample :
    LibRule.analyzeNode none false (.call true (.ident "Set") [.arrayLit []]) =
      some { type := .arraylike, confidence := 80, method := .constructor } ∧
    LibRule.checkBooleanContext defaultConfig none
      (.call true (.ident "Set") [.arrayLit []]) [Frame.ifTest] false =
    some { kind := .arraylike, specialized := false, messageId := some "arrayLikeTruthy",
           fixText := some "new Set([]).size > 0",
           suggestions := ["new Set([]).size > 0"] } :=
  ⟨rfl, rfl⟩

/-- C10 amended: in the part_006 variant a Set or Map constructor call on an
empty array literal gets no classification and no diagnosis in any
configuration and context; in the lib variant it is classified arraylike at
confidence 80 and a diagnosis fires. -/
theorem C10_empty_array_constructor (c : String) (hc : c = "Set" ∨ c = "Map")
    (sn : Bool) (cfg : Config) (isNew lg : Bool) (ctx : List Frame) :
    PartSix.analyzeNode sn (.call isNew (.ident c) [.arrayLit []]) ctx = none ∧
    PartSix.checkBooleanContext cfg (.call isNew (.ident c) [.arrayLit []]) ctx lg = none := by
  rcases hc with rfl | rfl <;> exact ⟨rfl, rfl⟩

theorem C10_empty_array_constructor_witness :
    ("Set" = "Set" ∨ "Set" = "Map") ∧
    (PartSix.analyzeNode false (.call true (.ident "Set") [.arrayLit []]) [Frame.ifTest] = none ∧
     PartSix.checkBooleanContext defaultConfig
       (.call true (.ident "Set") [.arrayLit []]) [Frame.ifTest] false = none) :=
  ⟨Or.inl rfl,
   C10_empty_array_constructor "Set" (Or.inl rfl) false defaultConfig true false [Frame.ifTest]⟩

/-- C1 counterexample: in the lib rule, a Set constructor whose single
argument is a two-element array literal is classified arraylike at
confidence 80 and a diagnosis fires under the default configuration,
falsifying the claim that such calls get no classification and no
diagnosis. -/
theorem C1_counterexample :
    LibRule.analyzeNode none false
      (.call true (.ident "Set") [.arrayLit [.ident "x", .ident "y"]]) =
      some { type := .arraylike, confidence := 80, method := .constructor } ∧
    LibRule.checkBooleanContext defaultConfig none
      (.call true (.ident "Set") [.arrayLit [.ident "x", .ident "y"]]) [Frame.ifTest] false =
      some { kind := .arraylike, specialized := false, messageId := some "arrayLikeTruthy",
             fixText := some "new Set([x, y]).size > 0",
             suggestions := ["new Set([x, y]).size > 0"] } :=
  ⟨rfl, rfl⟩

/-- C1 amended: for a Set, Map, WeakSet or WeakMap invocation with a single
argument that is a non-array-literal expression or a multi-element array
literal, the part_006 variant returns no classification and no diagnosis;
the lib variant does so only for the non-array-literal case, while a
multi-element array literal is classified arraylike at confidence 80 there
and a diagnosis fires. -/
theorem C1_intentional_constructor_args (c : String)
    (hc : c = "Set" ∨ c = "Map" ∨ c = "WeakSet" ∨ c = "WeakMap")
    (a : Expr) (ha : (isMultiElementArray a || !isArrayLiteral a) = true)
    (sn : Bool) (cfg : Config) (isNew lg : Bool) (ctx : List Frame) :
    (PartSix.analyzeNode sn (.call isNew (.ident c) [a]) ctx = none ∧
     PartSix.checkBooleanContext cfg (.call isNew (.ident c) [a]) ctx lg = none) ∧
    (isArrayLiteral a = false →
      LibRule.analyzeNode none sn (.call isNew (.ident c) [a]) = none ∧
      LibRule.checkBooleanContext cfg none (.call isNew (.ident c) [a]) ctx lg = none) := by
  obtain ⟨ca, co, cal, ab, snn⟩ := cfg
  rcases hc with rfl | rfl | rfl | rfl <;> cases a <;> cases sn <;> cases snn <;>
    try exact ⟨⟨rfl, rfl⟩, fun _ => ⟨rfl, rfl⟩⟩
  all_goals
    rename_i es
  all_goals
    simp only [isMultiElementArray, isArrayLiteral, Bool.not_true, Bool.or_false,
      decide_eq_true_eq] at ha
  all_goals
    cases es with
    | nil => exact absurd ha (by simp)
    | cons e1 t =>
      cases t with
      | nil => exact absurd ha (by simp)
      | cons e2 t2 =>
          exact ⟨⟨rfl, rfl⟩, fun hb => by simp [isArrayLiteral] at hb⟩

theorem C1_intentional_constructor_args_witness :
    ("Set" = "Set" ∨ "Set" = "Map" ∨ "Set" = "WeakSet" ∨ "Set" = "WeakMap") ∧
    ((isMultiElementArray (Expr.ident "xs") || !isArrayLiteral (Expr.ident "xs")) = true) ∧
    ((PartSix.analyzeNode false (.call true (.ident "Set") [.ident "xs"]) [Frame.ifTest] = none ∧
      PartSix.checkBooleanContext defaultConfig
        (.call true (.ident "Set") [.ident "xs"]) [Frame.ifTest] false = none) ∧
     (isArrayLiteral (Expr.ident "xs") = false →
       LibRule.analyzeNode none false (.call true (.ident "Set") [.ident "xs"]) = none ∧
       LibRule.checkBooleanContext defaultConfig none
         (.call true (.ident "Set") [.ident "xs"]) [Frame.ifTest] false = none)) :=
  ⟨Or.inl rfl, rfl,
   C1_intentional_constructor_args "Set" (Or.inl rfl) (Expr.ident "xs") rfl false
     defaultConfig true false [Frame.ifTest]⟩

/-- C6: evaluation of part_006 at the failing input.  In the two-statement
program declaring const with an object pattern binding items and then
testing if items, the name items is bound by destructuring, yet tier 7a
classifies the use as array at confidence 85 via the variable-name method
and the diagnosis fires: the ancestor walk of isDestructuredVariable starts
at the use site and can never see the destructuring declaration that bound
the name, contradicting the stated intent of not flagging destructured
variables. -/
theorem C6_destructured_use_flagged :
    PartSix.boundByDestructuring destructuredProgram "items" = true ∧
    PartSix.analyzeNode false (.ident "items") [Frame.ifTest] =
      some ⟨.array, 85, some .variableName, false, none⟩ ∧
    PartSix.runRule defaultConfig destructuredProgram =
      [{ kind := .array, specialized := false, messageId := some "arrayTruthy",
         fixText := some "items.length > 0",
         suggestions := ["items.length > 0", "Boolean(items)"] }] :=
  ⟨rfl, rfl, rfl⟩

/-- C7 counterexample: in the lib rule there is no exact-name tier, and all
variable-name evidence sits behind strictNaming at confidence 60: the exact
common name items receives no classification and no diagnosis when
strictNaming is off, and confidence 60 rather than 85 when it is on. -/
theorem C7_counterexample :
    LibRule.analyzeNode none false (.ident "items") = none ∧
    LibRule.checkBooleanContext defaultConfig none (.ident "items") [Frame.ifTest] false = none ∧
    LibRule.analyzeNode none true (.ident "items") =
      some { type := .array, confidence := 60, method := .naming } :=
  ⟨rfl, rfl, rfl⟩

/-- C7 amended: in the part_006 variant, exact-name matches (for uses with
no destructuring-pattern ancestor) are classified at confidence 85 via the
variable-name method whatever the value of strictNaming, and with
strictNaming off a name matching neither exact list produces no diagnosis,
so disabling strictNaming removes exactly the pattern-based diagnoses; in
the lib variant every variable-name diagnosis is pattern-based at
confidence 60 and gated on strictNaming, with no exact-name tier. -/
theorem C7_naming_tiers :
    (∀ (sn : Bool) (n : String) (ctx : List Frame),
        n ∈ PartSix.exactArrayNames →
        PartSix.hasPatternFrame ctx = false →
        PartSix.analyzeNode sn (.ident n) ctx =
          some ⟨.array, 85, some .variableName, false, none⟩) ∧
    (∀ (sn : Bool) (n : String) (ctx : List Frame),
        n ∉ PartSix.exactArrayNames →
        n ∈ PartSix.exactObjectNames →
        PartSix.hasPatternFrame ctx = false →
        PartSix.analyzeNode sn (.ident n) ctx =
          some ⟨.object, 85, some .variableName, false, none⟩) ∧
    (∀ (n : String) (ctx : List Frame) (lg ca co cal ab : Bool),
        n ∉ PartSix.exactArrayNames →
        n ∉ PartSix.exactObjectNames →
        PartSix.checkBooleanContext ⟨ca, co, cal, ab, false⟩ (.ident n) ctx lg = none) ∧
    (∀ (n : String), LibRule.analyzeNode none false (.ident n) = none) := by
  refine ⟨?_, ?_, ?_, ?_⟩
  · intro sn n ctx h1 h2
    simp [PartSix.analyzeNode, PartSix.isDestructuredVariable, h1, h2]
  · intro sn n ctx h1 h2 h3
    simp [PartSix.analyzeNode, PartSix.isDestructuredVariable, h1, h2, h3]
  · intro n ctx lg ca co cal ab h1 h2
    have hnone : PartSix.analyzeNode false (.ident n) ctx = none := by
      by_cases hd : PartSix.hasPatternFrame ctx = true
      · simp [PartSix.analyzeNode, PartSix.isDestructuredVariable, hd]
      · rw [Bool.not_eq_true] at hd
        simp [PartSix.analyzeNode, PartSix.isDestructuredVariable, hd, h1, h2]
    simp [PartSix.checkBooleanContext, hnone]
  · intro n
    rfl

theorem C7_naming_tiers_witness :
    ("items" ∈ PartSix.exactArrayNames ∧
     PartSix.hasPatternFrame [] = false ∧
     PartSix.analyzeNode true (Expr.ident "items") [] =
       some ⟨.array, 85, some .variableName, false, none⟩) ∧
    ("zzz" ∉ PartSix.exactArrayNames ∧
     "zzz" ∉ PartSix.exactObjectNames ∧
     PartSix.checkBooleanContext ⟨true, true, true, true, false⟩
       (Expr.ident "zzz") [Frame.ifTest] false = none) ∧
    LibRule.analyzeNode none false (Expr.ident "items") = none :=
  ⟨⟨by decide, rfl, C7_naming_tiers.1 true "items" [] (by decide) rfl⟩,
   ⟨by decide, by decide,
    C7_naming_tiers.2.2.1 "zzz" [Frame.ifTest] false true true true true
      (by decide) (by decide)⟩,
   C7_naming_tiers.2.2.2 "items"⟩

/-- C3 counterexample: the CallExpression visitor of the lib rule reports on
the argument of a Boolean call whenever the argument classifies with
confidence above 50 and its kind is enabled, without consulting
allowExplicitBoolean, so under the default configuration (which has
allowExplicitBoolean true) a diagnosis is produced on the empty array
literal inside a Boolean call. -/
theorem C3_counterexample :
    defaultConfig.allowExplicitBoolean = true ∧
    LibRule.booleanVisitor defaultConfig none
      (.call false (.ident "Boolean") [.arrayLit []]) =
      some { kind := .array, specialized := false, messageId := none, fixText := none,
             suggestions := ["[].length > 0"] } :=
  ⟨rfl, rfl⟩

/-- C3 amended: with allowExplicitBoolean true, the boolean-context checking
path of both variants never produces a diagnosis on a node whose parent is
a Boolean call or whose parent and grandparent are logical-not negations,
for any node and classification; however the separate CallExpression
visitor of the lib rule still emits an advisory report on the argument of
Boolean calls regardless of allowExplicitBoolean. -/
theorem C3_explicit_boolean_suppression :
    (∀ (cfg : Config) (E : Expr) (tail : List Frame) (lg : Bool),
        cfg.allowExplicitBoolean = true →
        PartSix.checkBooleanContext cfg E
          (Frame.callArg false (.ident "Boolean") :: tail) lg = none) ∧
    (∀ (cfg : Config) (E : Expr) (tail : List Frame) (lg : Bool),
        cfg.allowExplicitBoolean = true →
        PartSix.checkBooleanContext cfg E
          (Frame.unaryArg "!" :: Frame.unaryArg "!" :: tail) lg = none) ∧
    (∀ (cfg : Config) (oracle : LibRule.Oracle) (E : Expr) (tail : List Frame) (lg : Bool),
        cfg.allowExplicitBoolean = true →
        LibRule.checkBooleanContext cfg oracle E
          (Frame.callArg false (.ident "Boolean") :: tail) lg = none) ∧
    (∀ (cfg : Config) (oracle : LibRule.Oracle) (E : Expr) (tail : List Frame) (lg : Bool),
        cfg.allowExplicitBoolean = true →
        LibRule.checkBooleanContext cfg oracle E
          (Frame.unaryArg "!" :: Frame.unaryArg "!" :: tail) lg = none) := by
  refine ⟨?_, ?_, ?_, ?_⟩
  · intro cfg E tail lg h
    unfold PartSix.checkBooleanContext
    cases PartSix.analyzeNode cfg.strictNaming E
        (Frame.callArg false (.ident "Boolean") :: tail) with
    | none => rfl
    | some a =>
      have hexp : isInExplicitBooleanContext E
          (Frame.callArg false (.ident "Boolean") :: tail) = true := rfl
      simp [PartSix.reportIssue, hexp, h]
  · intro cfg E tail lg h
    unfold PartSix.checkBooleanContext
    cases PartSix.analyzeNode cfg.strictNaming E
        (Frame.unaryArg "!" :: Frame.unaryArg "!" :: tail) with
    | none => rfl
    | some a =>
      have hexp : isInExplicitBooleanContext E
          (Frame.unaryArg "!" :: Frame.unaryArg "!" :: tail) = true := rfl
      simp [PartSix.reportIssue, hexp, h]
  · intro cfg oracle E tail lg h
    unfold LibRule.checkBooleanContext
    cases LibRule.analyzeNode oracle cfg.strictNaming E with
    | none => rfl
    | some a =>
      have hexp : isInExplicitBooleanContext E
          (Frame.callArg false (.ident "Boolean") :: tail) = true := rfl
      simp [LibRule.reportIssue, hexp, h]
  · intro cfg oracle E tail lg h
    unfold LibRule.checkBooleanContext
    cases LibRule.analyzeNode oracle cfg.strictNaming E with
    | none => rfl
    | some a =>
      have hexp : isInExplicitBooleanContext E
          (Frame.unaryArg "!" :: Frame.unaryArg "!" :: tail) = true := rfl
      simp [LibRule.reportIssue, hexp, h]

theorem C3_explicit_boolean_suppression_witness :
    defaultConfig.allowExplicitBoolean = true ∧
    PartSix.checkBooleanContext defaultConfig (Expr.arrayLit [])
      [Frame.callArg false (Expr.ident "Boolean")] false = none ∧
    PartSix.checkBooleanContext defaultConfig (Expr.arrayLit [])
      [Frame.unaryArg "!", Frame.unaryArg "!", Frame.ifTest] false = none ∧
    LibRule.checkBooleanContext defaultConfig none (Expr.arrayLit [])
      [Frame.callArg false (Expr.ident "Boolean")] false = none ∧
    LibRule.checkBooleanContext defaultConfig none (Expr.arrayLit [])
      [Frame.unaryArg "!", Frame.unaryArg "!", Frame.ifTest] false = none :=
  ⟨rfl,
   C3_explicit_boolean_suppression.1 defaultConfig (Expr.arrayLit []) [] false rfl,
   C3_explicit_boolean_suppression.2.1 defaultConfig (Expr.arrayLit []) [Frame.ifTest] false rfl,
   C3_explicit_boolean_suppression.2.2.1 defaultConfig none (Expr.arrayLit []) [] false rfl,
   C3_explicit_boolean_suppression.2.2.2 defaultConfig none (Expr.arrayLit [])
     [Frame.ifTest] false rfl⟩

/-- C4 counterexample: the lib rule has no validation-pattern suppression,
so the empty array literal on the left of a logical-and whose right operand
is the corresponding length comparison still receives a diagnosis there,
falsifying the claim for that variant. -/
theorem C4_counterexample :
    LibRule.checkBooleanContext defaultConfig none (.arrayLit [])
      [Frame.logicalL "&&"
        (.binary ">" (.member (.arrayLit []) (.ident "length") false) (.lit "0"))] true =
      some { kind := .array, specialized := false, messageId := some "arrayInLogical",
             fixText := some "[].length > 0",
             suggestions := ["[].length > 0", "Boolean([])"] } :=
  rfl

/-- C4 amended: in the part_006 variant, a node on the left of a logical-and
whose right operand is a length or size comparison with GT or GE, a bare
length or size member access, or an Object.keys length access, never
receives a diagnosis, whatever its classification and the configuration;
the lib variant performs no such suppression. -/
theorem C4_validation_pattern_suppression (cfg : Config) (E right : Expr)
    (tail : List Frame) (lg : Bool)
    (h : PartSix.validLengthCheckRight right = true) :
    PartSix.checkBooleanContext cfg E (Frame.logicalL "&&" right :: tail) lg = none := by
  unfold PartSix.checkBooleanContext
  cases PartSix.analyzeNode cfg.strictNaming E (Frame.logicalL "&&" right :: tail) with
  | none => rfl
  | some a =>
    have hv : PartSix.isProperValidationPattern E (Frame.logicalL "&&" right :: tail) = true := by
      simp [PartSix.isProperValidationPattern, h]
    simp [PartSix.reportIssue, hv]

theorem C4_validation_pattern_suppression_witness :
    PartSix.validLengthCheckRight
      (.binary ">" (.member (.ident "items") (.ident "length") false) (.lit "0")) = true ∧
    PartSix.checkBooleanContext defaultConfig (Expr.arrayLit [])
      [Frame.logicalL "&&"
        (.binary ">" (.member (.ident "items") (.ident "length") false) (.lit "0"))] true = none :=
  ⟨rfl,
   C4_validation_pattern_suppression defaultConfig (Expr.arrayLit [])
     (.binary ">" (.member (.ident "items") (.ident "length") false) (.lit "0")) [] true rfl⟩

/-- Any report produced by part_006 reportIssue carries the kind of the
analysis it was produced from. -/
theorem partSix_reportIssue_kind (cfg : Config) (node : Expr) (ctx : List Frame)
    (a : PartSix.Analysis) (lg : Bool) (r : Report)
    (h : PartSix.reportIssue cfg node ctx a lg = some r) : r.kind = a.type := by
  simp only [PartSix.reportIssue] at h
  repeat' split at h
  all_goals first
    | exact Option.noConfusion h
    | (have h2 := Option.some.inj h; subst h2; rfl)

/-- Filtering the reports of part_006 reportIssue by kind equals gating on
the kind of the analysis. -/
theorem partSix_bind_kind (cfg : Config) (node : Expr) (ctx : List Frame)
    (a : PartSix.Analysis) (lg : Bool) (k : CollKind) :
    (PartSix.reportIssue cfg node ctx a lg).bind
        (fun r => if r.kind = k then none else some r) =
      if a.type = k then none else PartSix.reportIssue cfg node ctx a lg := by
  cases h : PartSix.reportIssue cfg node ctx a lg with
  | none => simp
  | some r =>
    have hk := partSix_reportIssue_kind cfg node ctx a lg r h
    simp [hk]

/-- Disabling the flag for one kind turns part_006 reportIssue into none
exactly when the analysis has that kind, and leaves it unchanged
otherwise. -/
theorem partSix_reportIssue_disable (cfg : Config) (node : Expr) (ctx : List Frame)
    (a : PartSix.Analysis) (lg : Bool) (k : CollKind) :
    PartSix.reportIssue (disableKind k cfg) node ctx a lg =
      if a.type = k then none else PartSix.reportIssue cfg node ctx a lg := by
  obtain ⟨ca, co, cal, ab, sn⟩ := cfg
  obtain ⟨t, conf, m, susp, el⟩ := a
  cases k <;> cases t <;> rfl

/-- Any report produced by the lib reportIssue carries the kind of the
analysis it was produced from. -/
theorem libRule_reportIssue_kind (cfg : Config) (node : Expr) (ctx : List Frame)
    (a : LibRule.Analysis) (lg : Bool) (r : Report)
    (h : LibRule.reportIssue cfg node ctx a lg = some r) : r.kind = a.type := by
  simp only [LibRule.reportIssue] at h
  repeat' split at h
  all_goals first
    | exact Option.noConfusion h
    | (have h2 := Option.some.inj h; subst h2; rfl)

/-- Filtering the reports of the lib reportIssue by kind equals gating on
the kind of the analysis. -/
theorem libRule_bind_kind (cfg : Config) (node : Expr) (ctx : List Frame)
    (a : LibRule.Analysis) (lg : Bool) (k : CollKind) :
    (LibRule.reportIssue cfg node ctx a lg).bind
        (fun r => if r.kind = k then none else some r) =
      if a.type = k then none else LibRule.reportIssue cfg node ctx a lg := by
  cases h : LibRule.reportIssue cfg node ctx a lg with
  | none => simp
  | some r =>
    have hk := libRule_reportIssue_kind cfg node ctx a lg r h
    simp [hk]

/-- For nodes that do not match the suspicious collection pattern, disabling
the flag for one kind gates the lib reportIssue on the kind of the
analysis. -/
theorem libRule_reportIssue_disable (cfg : Config) (node : Expr) (ctx : List Frame)
    (a : LibRule.Analysis) (lg : Bool) (k : CollKind)
    (hsusp : LibRule.hasSuspiciousCollectionPattern node = none) :
    LibRule.reportIssue (disableKind k cfg) node ctx a lg =
      if a.type = k then none else LibRule.reportIssue cfg node ctx a lg := by
  obtain ⟨ca, co, cal, ab, sn⟩ := cfg
  obtain ⟨t, conf, m⟩ := a
  cases k <;> cases t <;>
    simp only [LibRule.reportIssue, disableKind, LibRule.shouldCheck, hsusp,
      Bool.not_false, Bool.not_true, if_true, if_false, ite_self] <;>
    rfl

/-- C2 counterexample: in the lib rule the specialized suspicious report is
emitted before the configuration gate, so with checkArrayLike set to false
a Set constructor on a one-element array literal still produces a diagnosis
of kind arraylike, falsifying the claim. -/
theorem C2_counterexample :
    (Config.mk true true false true false).checkArrayLike = false ∧
    LibRule.checkBooleanContext ⟨true, true, false, true, false⟩ none
      (.call true (.ident "Set") [.arrayLit [.ident "x"]]) [Frame.ifTest] false =
      some { kind := .arraylike, specialized := true, messageId := none, fixText := none,
             suggestions := ["x", "new Set(x).size > 0", "new Set([x]).size > 0"] } :=
  ⟨rfl, rfl⟩

/-- C2 amended: in the part_006 variant, turning the configuration flag of
one kind off suppresses exactly the diagnoses of that kind, for every node,
context and evidence tier including the suspicious constructor pattern; in
the lib variant the same holds for every node that does not match the
suspicious pattern, while a suspicious Set or Map constructor is reported
before the configuration gate and is therefore not suppressed. -/
theorem C2_configuration_gating :
    (∀ (cfg : Config) (k : CollKind) (node : Expr) (ctx : List Frame) (lg : Bool),
        PartSix.checkBooleanContext (disableKind k cfg) node ctx lg =
          (PartSix.checkBooleanContext cfg node ctx lg).bind
            (fun r => if r.kind = k then none else some r)) ∧
    (∀ (cfg : Config) (k : CollKind) (oracle : LibRule.Oracle) (node : Expr)
        (ctx : List Frame) (lg : Bool),
        LibRule.hasSuspiciousCollectionPattern node = none →
        LibRule.checkBooleanContext (disableKind k cfg) oracle node ctx lg =
          (LibRule.checkBooleanContext cfg oracle node ctx lg).bind
            (fun r => if r.kind = k then none else some r)) := by
  constructor
  · intro cfg k node ctx lg
    have hsn : (disableKind k cfg).strictNaming = cfg.strictNaming := by
      cases k <;> rfl
    unfold PartSix.checkBooleanContext
    rw [hsn]
    cases h : PartSix.analyzeNode cfg.strictNaming node ctx with
    | none => rfl
    | some a =>
      show PartSix.reportIssue (disableKind k cfg) node ctx a lg =
        (PartSix.reportIssue cfg node ctx a lg).bind
          (fun r => if r.kind = k then none else some r)
      rw [partSix_reportIssue_disable, partSix_bind_kind]
  · intro cfg k oracle node ctx lg hsusp
    have hsn : (disableKind k cfg).strictNaming = cfg.strictNaming := by
      cases k <;> rfl
    unfold LibRule.checkBooleanContext
    rw [hsn]
    cases h : LibRule.analyzeNode oracle cfg.strictNaming node with
    | none => rfl
    | some a =>
      show LibRule.reportIssue (disableKind k cfg) node ctx a lg =
        (LibRule.reportIssue cfg node ctx a lg).bind
          (fun r => if r.kind = k then none else some r)
      rw [libRule_reportIssue_disable cfg node ctx a lg k hsusp, libRule_bind_kind]

theorem C2_configuration_gating_witness :
    LibRule.hasSuspiciousCollectionPattern (Expr.arrayLit []) = none ∧
    (PartSix.checkBooleanContext (disableKind CollKind.array defaultConfig)
        (Expr.arrayLit []) [Frame.ifTest] false =
      (PartSix.checkBooleanContext defaultConfig (Expr.arrayLit []) [Frame.ifTest] false).bind
        (fun r => if r.kind = CollKind.array then none else some r)) ∧
    (LibRule.checkBooleanContext (disableKind CollKind.array defaultConfig) none
        (Expr.arrayLit []) [Frame.ifTest] false =
      (LibRule.checkBooleanContext defaultConfig none
          (Expr.arrayLit []) [Frame.ifTest] false).bind
        (fun r => if r.kind = CollKind.array then none else some r)) :=
  ⟨rfl,
   C2_configuration_gating.1 defaultConfig CollKind.array (Expr.arrayLit []) [Frame.ifTest] false,
   C2_configuration_gating.2 defaultConfig CollKind.array none (Expr.arrayLit [])
     [Frame.ifTest] false rfl⟩
